import Mathlib

/-!
Shallow embedding of `src/examples/basic-chat-python/main.py` (UniRoute
basic chat example).

The program is a single function `main` that
 1. reads `UNIROUTE_API_KEY` from the environment (absent or empty is fatal),
 2. reads `UNIROUTE_API_URL` with default `http://localhost:8084`,
 3. builds a fixed chat request payload,
 4. POSTs it to `{api_url}/v1/chat` with JSON/Bearer headers and timeout 30,
 5. classifies transport errors (`requests.exceptions.RequestException`,
    including `HTTPError` raised by `response.raise_for_status()` for
    status codes 400..599),
 6. parses the body as JSON (`json.JSONDecodeError` is fatal),
 7. renders the decoded value with Python dict/list semantics.

The embedding is a pure function from the process environment and the
outcome of the single network call to the observable behaviour: the list
of lines printed to stdout, the list of HTTP requests issued, and the
process outcome (a `sys.exit` code, or an unhandled Python exception,
which CPython turns into a stderr traceback and exit status 1).

External collaborators are modelled at their interface:
 * `requests.post` either raises a `RequestException` (connection refused,
   DNS failure, timeout) carrying a message string, or returns a response
   with a status code, a reason phrase and a body;
 * `Response.raise_for_status` raises `HTTPError` exactly for status codes
   400..599, with message
   `"{code} Client Error: {reason} for url: {url}"` (4xx) or
   `"{code} Server Error: {reason} for url: {url}"` (5xx);
 * `Response.json()` either yields the decoded JSON value or raises
   `json.JSONDecodeError`; the body is therefore modelled as either
   well-formed (raw text together with its decoded value) or malformed
   (raw text together with the decoder's error message).
-/

namespace Uniroute

/-! A decoded JSON value, as produced by Python's `json.loads`:
`None`, `bool`, number, `str`, `list`, `dict` (keys are strings). Numbers
appearing in responses are modelled as integers, which covers every field
the program reads (`*_tokens` counts); object key lists are assumed
duplicate-free, as `json.loads` always produces. The element spine of
lists (`JsonList`) and the key/value spine of dicts (`JsonObj`) are
mutually inductive with `Json` so that every function on values is
structurally recursive. -/
mutual
inductive Json where
  | null : Json
  | bool (b : Bool) : Json
  | num (n : Int) : Json
  | str (s : String) : Json
  | arr (elems : JsonList) : Json
  | obj (fields : JsonObj) : Json
inductive JsonList where
  | nil : JsonList
  | cons (hd : Json) (tl : JsonList) : JsonList
inductive JsonObj where
  | nil : JsonObj
  | cons (key : String) (val : Json) (tl : JsonObj) : JsonObj
end

/-- Build a `JsonList` from a Lean list (for writing concrete values). -/
def JsonList.ofList : List Json → JsonList
  | [] => .nil
  | x :: xs => .cons x (JsonList.ofList xs)

/-- Build a `JsonObj` from a Lean association list. -/
def JsonObj.ofList : List (String × Json) → JsonObj
  | [] => .nil
  | (k, v) :: fs => .cons k v (JsonObj.ofList fs)

/-- A JSON array from a Lean list literal. -/
def jarr (xs : List Json) : Json := .arr (JsonList.ofList xs)

/-- A JSON object from a Lean association-list literal. -/
def jobj (fs : List (String × Json)) : Json := .obj (JsonObj.ofList fs)

/-- Number of elements of a JSON array (Python `len` on a list). -/
def JsonList.length : JsonList → Nat
  | .nil => 0
  | .cons _ tl => tl.length + 1

/-- Element at position `i` of a JSON array, if present. -/
def JsonList.get? : JsonList → Nat → Option Json
  | .nil, _ => none
  | .cons hd _, 0 => some hd
  | .cons _ tl, i + 1 => tl.get? i

/-- Does the array hold the string `key` as an element? (Python `==`
between a string and a non-string value is `False`.) -/
def JsonList.hasStr : JsonList → String → Bool
  | .nil, _ => false
  | .cons (.str s) tl, key => s = key || tl.hasStr key
  | .cons _ tl, key => tl.hasStr key

/-- Number of keys of a JSON object (Python `len` on a dict). -/
def JsonObj.size : JsonObj → Nat
  | .nil => 0
  | .cons _ _ tl => tl.size + 1

/-- Value bound to `key` in a JSON object (first binding), if present:
Python dict lookup. -/
def JsonObj.lookup : JsonObj → String → Option Json
  | .nil, _ => none
  | .cons k v tl, key => if k = key then some v else tl.lookup key

/-- Python type name of a value, as it appears in exception messages. -/
def pyTypeName : Json → String
  | .null => "NoneType"
  | .bool _ => "bool"
  | .num _ => "int"
  | .str _ => "str"
  | .arr _ => "list"
  | .obj _ => "dict"

/-- An unhandled Python exception, by class and message. The program only
ever lets these escape from the rendering phase (lines 74-87 of the
source), where `in`, `[...]`, `len` and `.get` are applied to decoded
JSON of unexpected shape. -/
inductive PyExc where
  | typeError (msg : String) : PyExc
  | keyError (key : String) : PyExc
  | indexError (msg : String) : PyExc
  | attributeError (msg : String) : PyExc
deriving DecidableEq

/-- Does `needle` occur at the head of `hay`? (Helper for Python's
substring test `needle in hay`.) -/
def leadMatch : List Char → List Char → Bool
  | [], _ => true
  | _ :: _, [] => false
  | c :: cs, d :: ds => c = d && leadMatch cs ds

/-- Occurrence of `needle` anywhere in `hay` (character lists). -/
def subSearch (needle : List Char) : List Char → Bool
  | [] => leadMatch needle []
  | c :: cs => leadMatch needle (c :: cs) || subSearch needle cs

/-- Python's `needle in hay` for strings: substring containment. -/
def strContains (hay needle : String) : Bool :=
  subSearch needle.data hay.data

/-- Does the string `s` start with `pre`? -/
def strStarts (s pre : String) : Bool :=
  leadMatch pre.data s.data

/-! Python `repr(v)` (mutual with the renderings of array elements and
dict fields): `str` of a container uses `repr` of its elements, as in
CPython. `repr`'s escaping of special characters inside strings is not
modelled; the program only ever formats plain message and token-count
values. -/
mutual
def pyRepr : Json → String
  | .null => "None"
  | .bool b => if b then "True" else "False"
  | .num n => toString n
  | .str s => "\x27" ++ s ++ "\x27"
  | .arr xs => "[" ++ pyReprItems xs ++ "]"
  | .obj fs => "\x7b" ++ pyReprFields fs ++ "\x7d"
def pyReprItems : JsonList → String
  | .nil => ""
  | .cons hd .nil => pyRepr hd
  | .cons hd tl => pyRepr hd ++ ", " ++ pyReprItems tl
def pyReprFields : JsonObj → String
  | .nil => ""
  | .cons k v .nil => "\x27" ++ k ++ "\x27: " ++ pyRepr v
  | .cons k v tl => "\x27" ++ k ++ "\x27: " ++ pyRepr v ++ ", " ++ pyReprFields tl
end

/-- Python `str(v)` as used by f-string interpolation: identity on
strings, `repr`-style rendering of containers. -/
def pyStr : Json → String
  | .null => "None"
  | .bool b => if b then "True" else "False"
  | .num n => toString n
  | .str s => s
  | j => pyRepr j

/-- Python membership test `key in v` for a string key: key lookup on a
dict, element equality on a list, substring on a str; `TypeError` on
non-iterable values (`None`, `bool`, `int`). -/
def pyContains (j : Json) (key : String) : Except PyExc Bool :=
  match j with
  | .obj fs => .ok (fs.lookup key).isSome
  | .arr xs => .ok (xs.hasStr key)
  | .str s => .ok (strContains s key)
  | j => .error (.typeError
      ("argument of type \x27" ++ pyTypeName j ++ "\x27 is not iterable"))

/-- Python subscript `v[key]` for a string key: dict lookup
(`KeyError` when absent); `TypeError` on lists, strings and
non-subscriptable values. -/
def pyIndexStr (j : Json) (key : String) : Except PyExc Json :=
  match j with
  | .obj fs =>
      match fs.lookup key with
      | some v => .ok v
      | none => .error (.keyError key)
  | .arr _ => .error (.typeError "list indices must be integers or slices, not str")
  | .str _ => .error (.typeError "string indices must be integers")
  | j => .error (.typeError
      ("\x27" ++ pyTypeName j ++ "\x27 object is not subscriptable"))

/-- Python `len(v)`: defined on lists, dicts and strings, `TypeError`
otherwise. -/
def pyLen (j : Json) : Except PyExc Nat :=
  match j with
  | .arr xs => .ok xs.length
  | .obj fs => .ok fs.size
  | .str s => .ok s.length
  | j => .error (.typeError
      ("object of type \x27" ++ pyTypeName j ++ "\x27 has no len()"))

/-- Python subscript `v[i]` for a natural index: list element
(`IndexError` out of range), one-character string on a str; `KeyError` on
a dict whose keys are strings; `TypeError` otherwise. -/
def pyIndexNat (j : Json) (i : Nat) : Except PyExc Json :=
  match j with
  | .arr xs =>
      match xs.get? i with
      | some v => .ok v
      | none => .error (.indexError "list index out of range")
  | .str s =>
      match s.data.get? i with
      | some c => .ok (.str (String.mk [c]))
      | none => .error (.indexError "string index out of range")
  | .obj _ => .error (.keyError (toString i))
  | j => .error (.typeError
      ("\x27" ++ pyTypeName j ++ "\x27 object is not subscriptable"))

/-- Python `v.get(key, default)`: defined on dicts only;
`AttributeError` on every other value. -/
def pyGet (j : Json) (key : String) (dflt : Json) : Except PyExc Json :=
  match j with
  | .obj fs => .ok ((fs.lookup key).getD dflt)
  | j => .error (.attributeError
      ("\x27" ++ pyTypeName j ++ "\x27 object has no attribute \x27get\x27"))

/-- One `{role, content}` entry of the request's `messages` list. -/
structure Message where
  role : String
  content : String
deriving DecidableEq

/-- The chat request payload (source lines 33-43). `temperature` holds
the rational `7/10`, standing for the Python float literal `0.7`; the
program never computes with it, it is carried in the payload only. -/
structure ChatRequest where
  model : String
  messages : List Message
  temperature : Rat
  max_tokens : Nat
deriving DecidableEq

/-- `request_data` from source lines 33-43: the fixed payload of the
example flow. -/
def request_data : ChatRequest :=
  { model := "gpt-4"
    messages := [{ role := "user"
                   content := "Hello! Explain what UniRoute is in one sentence." }]
    temperature := ⟨7, 10, by decide, by decide⟩
    max_tokens := 100 }

/-- An HTTP request as issued by `requests.post` at source lines 47-55:
method, full URL, structured body (serialised to JSON by the `json=`
keyword), header list and timeout in seconds. -/
structure HttpRequest where
  method : String
  url : String
  body : ChatRequest
  headers : List (String × String)
  timeout : Nat
deriving DecidableEq

/-- The process environment: `os.getenv` as a partial map from variable
names to values. -/
abbrev Env : Type := String → Option String

/-- The body of an HTTP response, at the interface of `Response.json()`:
either raw text together with its JSON decoding, or raw text on which the
decoder fails with the given message. -/
inductive Body where
  | wellFormed (decoded : Json) (raw : String) : Body
  | malformed (raw : String) (decodeErr : String) : Body

/-- Outcome of the single `requests.post` call: either a
`requests.exceptions.RequestException` whose `str` is `msg` (connection
refused, DNS failure, timeout), or a response with status code, reason
phrase and body. -/
inductive PostOutcome where
  | reqExc (msg : String) : PostOutcome
  | resp (status : Nat) (reason : String) (body : Body) : PostOutcome

/-- Process outcome: `sys.exit code`, or an unhandled exception (CPython
prints a traceback to stderr and exits with status 1). -/
inductive Outcome where
  | exited (code : Nat) : Outcome
  | crashed (e : PyExc) : Outcome
deriving DecidableEq

/-- Exit status of the process for each outcome; an unhandled exception
terminates CPython with status 1. -/
def Outcome.exitStatus : Outcome → Nat
  | .exited c => c
  | .crashed _ => 1

/-- Observable behaviour of one invocation: lines printed to stdout in
order (one list entry per `print` call), HTTP requests issued in order,
and the process outcome. -/
structure RunResult where
  stdout : List String
  sent : List HttpRequest
  outcome : Outcome
deriving DecidableEq

/-- The remediation text printed when `UNIROUTE_API_KEY` is missing or
empty (source lines 22-26). -/
def missingKeyLines : List String :=
  [ "❌ Error: UNIROUTE_API_KEY environment variable is required"
  , ""
  , "Get your API key:"
  , "  1. Run: uniroute keys create"
  , "  2. Export: export UNIROUTE_API_KEY=\x27ur_your_key_here\x27" ]

/-- Result of the missing-credential branch (source lines 21-27): print
remediation text, send nothing, `sys.exit(1)`. -/
def missingResult : RunResult :=
  { stdout := missingKeyLines, sent := [], outcome := .exited 1 }

/-- Endpoint resolution (source line 30):
`os.getenv("UNIROUTE_API_URL", "http://localhost:8084")`. -/
def resolveApiUrl (env : Env) : String :=
  (env "UNIROUTE_API_URL").getD "http://localhost:8084"

/-- The single POST request assembled at source lines 47-55. -/
def buildRequest (env : Env) (api_key : String) : HttpRequest :=
  { method := "POST"
    url := resolveApiUrl env ++ "/v1/chat"
    body := request_data
    headers := [ ("Content-Type", "application/json")
               , ("Authorization", "Bearer " ++ api_key) ]
    timeout := 30 }

/-- `str(HTTPError)` produced by `Response.raise_for_status` for a status
code in 400..599 (4xx are client errors, 5xx server errors). -/
def httpErrorMsg (status : Nat) (reason url : String) : String :=
  toString status
    ++ (if status < 500 then " Client Error: " else " Server Error: ")
    ++ reason ++ " for url: " ++ url

/-- Lines printed by the transport-error handler (source lines 58-62):
the error message, plus a hint to start the server when `"Connection"`
occurs in `str(e)`. -/
def sendErrLines (excMsg : String) : List String :=
  ["❌ Error sending request: " ++ excMsg]
    ++ (if strContains excMsg "Connection" then
          ["", "💡 Make sure UniRoute server is running:", "  make dev"]
        else [])

/-- The choices block (source lines 76-79):
`if "choices" in chat_response and len(chat_response["choices"]) > 0:`
then print `f"💬 {content}"` for the first choice's message content,
defaulting absent fields. Yields the printed lines (none or one), or the
first Python exception raised. -/
def renderChoices (chat_response : Json) : Except PyExc (List String) := do
  let b ← pyContains chat_response "choices"
  if b then
    let cs ← pyIndexStr chat_response "choices"
    let n ← pyLen cs
    if n > 0 then
      let cs2 ← pyIndexStr chat_response "choices"
      let c0 ← pyIndexNat cs2 0
      let message ← pyGet c0 "message" (.obj .nil)
      let content ← pyGet message "content" (.str "")
      pure ["💬 " ++ pyStr content]
    else
      pure []
  else
    pure []

/-- The usage block (source lines 82-87): if `"usage"` is a key of the
response, print the token summary line, defaulting each absent sub-field
to 0. Yields the printed lines (none or one), or the first Python
exception raised. -/
def renderUsage (chat_response : Json) : Except PyExc (List String) := do
  let b ← pyContains chat_response "usage"
  if b then
    let usage ← pyIndexStr chat_response "usage"
    let prompt_tokens ← pyGet usage "prompt_tokens" (.num 0)
    let completion_tokens ← pyGet usage "completion_tokens" (.num 0)
    let total_tokens ← pyGet usage "total_tokens" (.num 0)
    pure ["📊 Tokens: " ++ pyStr prompt_tokens ++ " prompt + "
            ++ pyStr completion_tokens ++ " completion = "
            ++ pyStr total_tokens ++ " total"]
  else
    pure []

/-- The rendering phase (source lines 74-87): the success banner and a
blank line, the choices block, a blank line, the usage block. Returns the
lines printed before the phase ends, and the unhandled exception if one
was raised mid-phase (lines printed before the raise are kept). -/
def render (chat_response : Json) : List String × Option PyExc :=
  let banner := ["✅ Chat Response:", ""]
  match renderChoices chat_response with
  | .error e => (banner, some e)
  | .ok l1 =>
      match renderUsage chat_response with
      | .error e => (banner ++ l1 ++ [""], some e)
      | .ok l2 => (banner ++ l1 ++ [""] ++ l2, none)

/-- Behaviour after a non-empty credential was obtained (source lines
30-87): build and send the request, classify transport errors
(`RequestException` from the post itself, `HTTPError` from
`raise_for_status` on status 400..599), classify decode errors, then
render. -/
def stepPost (env : Env) (api_key : String) (post : PostOutcome) : RunResult :=
  let req := buildRequest env api_key
  match post with
  | .reqExc msg =>
      { stdout := sendErrLines msg, sent := [req], outcome := .exited 1 }
  | .resp status reason body =>
      if 400 ≤ status ∧ status < 600 then
        { stdout := sendErrLines (httpErrorMsg status reason req.url)
          sent := [req], outcome := .exited 1 }
      else
        match body with
        | .malformed raw decodeErr =>
            { stdout := [ "❌ Error parsing response: " ++ decodeErr
                        , "Response: " ++ raw ]
              sent := [req], outcome := .exited 1 }
        | .wellFormed chat_response _raw =>
            match render chat_response with
            | (ls, some e) => { stdout := ls, sent := [req], outcome := .crashed e }
            | (ls, none) => { stdout := ls, sent := [req], outcome := .exited 0 }

/-- The whole program `main` (source lines 18-87), as a function of the
environment and the outcome of the (at most one) network call. Python's
`if not api_key:` is taken for an unset variable and for the empty
string. -/
def run (env : Env) (post : PostOutcome) : RunResult :=
  match env "UNIROUTE_API_KEY" with
  | none => missingResult
  | some api_key =>
      if api_key = "" then missingResult
      else stepPost env api_key post

/-- A concrete environment holding only a valid credential. -/
def envTest : Env :=
  fun name => if name = "UNIROUTE_API_KEY" then some "ur_test_key" else none

/-- A concrete environment agreeing with `envTest` on the two recognised
variables but holding an unrelated extra binding. -/
def envAlt : Env :=
  fun name =>
    if name = "UNIROUTE_API_KEY" then some "ur_test_key"
    else if name = "HOME" then some "/root" else none

/-- An environment with the credential set to the empty string. -/
def envEmptyKey : Env :=
  fun name => if name = "UNIROUTE_API_KEY" then some "" else none

/-- The `usage` record of the spec's golden response body. -/
def goldenUsage : JsonObj := JsonObj.ofList
  [ ("prompt_tokens", .num 5)
  , ("completion_tokens", .num 3)
  , ("total_tokens", .num 8) ]

/-- The fields of the spec's golden response body. -/
def goldenFields : JsonObj := JsonObj.ofList
  [ ("choices", jarr [ jobj [("message", jobj [("content", .str "Hi")])] ])
  , ("usage", .obj goldenUsage) ]

/-- The decoded golden response body of the spec's functional test:
`{"choices":[{"message":{"content":"Hi"}}],"usage":{"prompt_tokens":5,
"completion_tokens":3,"total_tokens":8}}`. -/
def goldenBody : Json := .obj goldenFields

/-- The fields of the decoded body `{"choices":[]}`. -/
def emptyChoicesFields : JsonObj := JsonObj.ofList [("choices", jarr [])]

/-- The raw text of the golden response body. -/
def goldenRaw : String :=
  "\x7b\x22choices\x22:[\x7b\x22message\x22:\x7b\x22content\x22:\x22Hi\x22\x7d\x7d],\x22usage\x22:\x7b\x22prompt_tokens\x22:5,\x22completion_tokens\x22:3,\x22total_tokens\x22:8\x7d\x7d"

/-- The decoded body `{"choices":[{"message":{"content":"Hi"}}]}` with no
`usage` record. -/
def noUsageBody : Json := jobj
  [ ("choices", jarr [ jobj [("message", jobj [("content", .str "Hi")])] ]) ]

lemma run_of_missing (env : Env) (post : PostOutcome)
    (h : env "UNIROUTE_API_KEY" = none ∨ env "UNIROUTE_API_KEY" = some "") :
    run env post = missingResult := by
  rcases h with h | h <;> unfold run <;> rw [h]
  rfl

lemma run_of_validKey (env : Env) (post : PostOutcome) (k : String)
    (hk : env "UNIROUTE_API_KEY" = some k) (hk' : k ≠ "") :
    run env post = stepPost env k post := by
  unfold run
  rw [hk]
  simp [hk']

lemma stepPost_sent (env : Env) (k : String) (post : PostOutcome) :
    (stepPost env k post).sent = [buildRequest env k] := by
  unfold stepPost
  rcases post with msg | ⟨status, reason, body⟩
  · rfl
  · by_cases hs : 400 ≤ status ∧ status < 600
    · simp [hs]
    · rcases body with ⟨j, raw⟩ | ⟨raw, err⟩
      · simp [hs]
        rcases hr : render j with ⟨ls, e⟩
        rcases e with _ | e <;> simp
      · simp [hs]

lemma mem_sent (env : Env) (post : PostOutcome) (r : HttpRequest)
    (hr : r ∈ (run env post).sent) :
    ∃ k, env "UNIROUTE_API_KEY" = some k ∧ k ≠ ""
      ∧ r = buildRequest env k
      ∧ (run env post).sent = [buildRequest env k] := by
  rcases hE : env "UNIROUTE_API_KEY" with _ | k
  · rw [run_of_missing env post (Or.inl hE)] at hr
    simp [missingResult] at hr
  · by_cases hk : k = ""
    · rw [run_of_missing env post (Or.inr (hk ▸ hE))] at hr
      simp [missingResult] at hr
    · rw [run_of_validKey env post k hE hk] at hr ⊢
      rw [stepPost_sent] at hr
      simp at hr
      subst hr
      exact ⟨k, rfl, hk, rfl, stepPost_sent env k post⟩

lemma exbind_ok {α β : Type} (a : α) (f : α → Except PyExc β) :
    ((Except.ok a : Except PyExc α) >>= f) = f a := rfl

lemma expure {α : Type} (a : α) : (pure a : Except PyExc α) = .ok a := rfl

lemma exbind_error {α β : Type} (e : PyExc) (f : α → Except PyExc β) :
    ((Except.error e : Except PyExc α) >>= f) = .error e := rfl

lemma leadMatch_append_self (xs ys : List Char) :
    leadMatch xs (xs ++ ys) = true := by
  induction xs with
  | nil => rfl
  | cons c cs ih => simp [leadMatch, ih]

lemma strStarts_append_self (p rest : String) :
    strStarts (p ++ rest) p = true := by
  unfold strStarts
  rw [String.data_append]
  exact leadMatch_append_self _ _

lemma strStarts_msgline_tok (s : String) :
    strStarts ("💬 " ++ s) "📊 Tokens: " = false := by
  unfold strStarts
  rw [String.data_append]
  rfl

lemma strStarts_msgline_marker (s : String) :
    strStarts ("💬 " ++ s) "💬 " = true := by
  unfold strStarts
  rw [String.data_append]
  exact leadMatch_append_self _ _

lemma renderChoices_shape (j : Json) (l : List String)
    (h : renderChoices j = .ok l) : l = [] ∨ ∃ s, l = ["💬 " ++ s] := by
  unfold renderChoices at h
  rcases h1 : pyContains j "choices" with e | b
  · rw [h1, exbind_error] at h
    cases h
  rw [h1, exbind_ok] at h
  rcases b
  · simp only [Bool.false_eq_true, if_false] at h
    cases h
    exact Or.inl rfl
  simp only [if_true] at h
  rcases h2 : pyIndexStr j "choices" with e | cs
  · rw [h2, exbind_error] at h
    cases h
  rw [h2, exbind_ok] at h
  rcases h3 : pyLen cs with e | n
  · rw [h3, exbind_error] at h
    cases h
  rw [h3, exbind_ok] at h
  by_cases hn : n > 0
  · rw [if_pos hn] at h
    rw [exbind_ok] at h
    rcases h4 : pyIndexNat cs 0 with e | c0
    · rw [h4, exbind_error] at h
      cases h
    rw [h4, exbind_ok] at h
    rcases h5 : pyGet c0 "message" (.obj .nil) with e | message
    · rw [h5, exbind_error] at h
      cases h
    rw [h5, exbind_ok] at h
    rcases h6 : pyGet message "content" (.str "") with e | content
    · rw [h6, exbind_error] at h
      cases h
    rw [h6, exbind_ok] at h
    cases h
    exact Or.inr ⟨pyStr content, rfl⟩
  · rw [if_neg hn] at h
    cases h
    exact Or.inl rfl

lemma renderChoices_empty (fs : JsonObj)
    (h : fs.lookup "choices" = some (.arr .nil)) :
    renderChoices (.obj fs) = .ok [] := by
  unfold renderChoices
  simp [pyContains, pyIndexStr, pyLen, h, JsonList.length, exbind_ok, expure]

lemma renderUsage_none (fs : JsonObj) (h : fs.lookup "usage" = none) :
    renderUsage (.obj fs) = .ok [] := by
  unfold renderUsage
  simp [pyContains, h, exbind_ok, expure]

lemma renderUsage_found (fs us : JsonObj) (np nc nt : Int)
    (hu : fs.lookup "usage" = some (.obj us))
    (hp : (us.lookup "prompt_tokens").getD (.num 0) = .num np)
    (hc : (us.lookup "completion_tokens").getD (.num 0) = .num nc)
    (ht : (us.lookup "total_tokens").getD (.num 0) = .num nt) :
    renderUsage (.obj fs)
      = .ok ["📊 Tokens: " ++ toString np ++ " prompt + " ++ toString nc
               ++ " completion = " ++ toString nt ++ " total"] := by
  unfold renderUsage
  simp [pyContains, pyIndexStr, pyGet, hu, hp, hc, ht, pyStr, exbind_ok, expure]

lemma render_ok (j : Json) (l1 l2 : List String)
    (h1 : renderChoices j = .ok l1) (h2 : renderUsage j = .ok l2) :
    render j = (["✅ Chat Response:", ""] ++ l1 ++ [""] ++ l2, none) := by
  unfold render
  rw [h1, h2]

lemma render_choicesExc (j : Json) (e : PyExc)
    (h1 : renderChoices j = .error e) :
    render j = (["✅ Chat Response:", ""], some e) := by
  unfold render
  rw [h1]

lemma stepPost_ok (env : Env) (k reason raw : String) (s : Nat) (j : Json)
    (ls : List String)
    (hs : ¬ (400 ≤ s ∧ s < 600)) (hr : render j = (ls, none)) :
    stepPost env k (.resp s reason (.wellFormed j raw))
      = { stdout := ls, sent := [buildRequest env k], outcome := .exited 0 } := by
  unfold stepPost
  dsimp only
  rw [if_neg hs, hr]

lemma stepPost_crash (env : Env) (k reason raw : String) (s : Nat) (j : Json)
    (ls : List String) (e : PyExc)
    (hs : ¬ (400 ≤ s ∧ s < 600)) (hr : render j = (ls, some e)) :
    stepPost env k (.resp s reason (.wellFormed j raw))
      = { stdout := ls, sent := [buildRequest env k], outcome := .crashed e } := by
  unfold stepPost
  dsimp only
  rw [if_neg hs, hr]

lemma stepPost_malformed (env : Env) (k reason raw err : String) (s : Nat)
    (hs : ¬ (400 ≤ s ∧ s < 600)) :
    stepPost env k (.resp s reason (.malformed raw err))
      = { stdout := ["❌ Error parsing response: " ++ err, "Response: " ++ raw]
          sent := [buildRequest env k], outcome := .exited 1 } := by
  unfold stepPost
  dsimp only
  rw [if_neg hs]

/-- C1: for every environment in which `UNIROUTE_API_KEY` is absent or
set to the empty string, the program issues no network call, exits with
status 1 (non-zero), and prints the remediation text telling the user how
to obtain (`uniroute keys create`) and export the credential. -/
theorem claim1_missing_credential (env : Env) (post : PostOutcome)
    (h : env "UNIROUTE_API_KEY" = none ∨ env "UNIROUTE_API_KEY" = some "") :
    (run env post).sent = []
      ∧ (run env post).outcome = .exited 1
      ∧ (run env post).outcome.exitStatus ≠ 0
      ∧ "Get your API key:" ∈ (run env post).stdout
      ∧ "  1. Run: uniroute keys create" ∈ (run env post).stdout
      ∧ "  2. Export: export UNIROUTE_API_KEY=\x27ur_your_key_here\x27"
          ∈ (run env post).stdout := by
  rw [run_of_missing env post h]
  refine ⟨rfl, rfl, by decide, ?_, ?_, ?_⟩ <;> decide

/-- Witness for C1 at the concrete environment whose credential is the
empty string. -/
theorem claim1_missing_credential_witness :
    (envEmptyKey "UNIROUTE_API_KEY" = none
        ∨ envEmptyKey "UNIROUTE_API_KEY" = some "")
      ∧ ((run envEmptyKey (.reqExc "unused")).sent = []
          ∧ (run envEmptyKey (.reqExc "unused")).outcome = .exited 1
          ∧ (run envEmptyKey (.reqExc "unused")).outcome.exitStatus ≠ 0
          ∧ "Get your API key:" ∈ (run envEmptyKey (.reqExc "unused")).stdout
          ∧ "  1. Run: uniroute keys create"
              ∈ (run envEmptyKey (.reqExc "unused")).stdout
          ∧ "  2. Export: export UNIROUTE_API_KEY=\x27ur_your_key_here\x27"
              ∈ (run envEmptyKey (.reqExc "unused")).stdout) :=
  ⟨Or.inr rfl,
   claim1_missing_credential envEmptyKey (.reqExc "unused") (Or.inr rfl)⟩

/-- C3: for every 2xx response whose body fails to decode as JSON, the
program prints the parse error and the raw body verbatim (prefixed with
`Response: `), and exits with status 1. -/
theorem claim3_decode_failure (env : Env) (k reason raw err : String)
    (s : Nat)
    (hk : env "UNIROUTE_API_KEY" = some k) (hk' : k ≠ "")
    (h2 : 200 ≤ s) (h2' : s ≤ 299) :
    (run env (.resp s reason (.malformed raw err))).stdout
        = ["❌ Error parsing response: " ++ err, "Response: " ++ raw]
      ∧ (run env (.resp s reason (.malformed raw err))).outcome
        = .exited 1 := by
  rw [run_of_validKey _ _ k hk hk',
      stepPost_malformed env k reason raw err s (by omega)]
  exact ⟨rfl, rfl⟩

/-- Witness for C3 at status 200 with a non-JSON body. -/
theorem claim3_decode_failure_witness :
    (envTest "UNIROUTE_API_KEY" = some "ur_test_key")
      ∧ ("ur_test_key" ≠ "")
      ∧ (200 ≤ 200) ∧ ((200 : Nat) ≤ 299)
      ∧ ((run envTest (.resp 200 "OK"
            (.malformed "not json" "Expecting value: line 1 column 1 (char 0)"))).stdout
          = [ "❌ Error parsing response: Expecting value: line 1 column 1 (char 0)"
            , "Response: not json" ]
        ∧ (run envTest (.resp 200 "OK"
            (.malformed "not json" "Expecting value: line 1 column 1 (char 0)"))).outcome
          = .exited 1) :=
  ⟨rfl, by decide, by decide, by decide,
   claim3_decode_failure envTest "ur_test_key" "OK" "not json"
     "Expecting value: line 1 column 1 (char 0)" 200 rfl (by decide)
     (by decide) (by decide)⟩

/-- C7: the request builder is a constant: it always yields the fixed
payload with one user-role message holding the fixed prompt, model
`gpt-4`, temperature `0.7` (the rational `7/10`) and `max_tokens` 100;
being a total constant, it performs no I/O and cannot fail. -/
theorem claim7_fixed_payload :
    request_data.model = "gpt-4"
      ∧ request_data.messages
          = [{ role := "user"
               content := "Hello! Explain what UniRoute is in one sentence." }]
      ∧ request_data.temperature = 7/10
      ∧ request_data.max_tokens = 100 := by
  refine ⟨rfl, rfl, ?_, rfl⟩
  show Rat.mk' 7 10 (by decide) (by decide) = 7/10
  rw [Rat.mk'_eq_divInt]
  norm_num [Rat.divInt_eq_div]

/-- C8: whenever `UNIROUTE_API_URL` is absent from the environment, the
endpoint resolves to the default base URL `http://localhost:8084` (the
resolution is a total function, so it never fails), and any request the
program sends goes to `http://localhost:8084/v1/chat`. -/
theorem claim8_default_endpoint (env : Env) (post : PostOutcome)
    (h : env "UNIROUTE_API_URL" = none) :
    resolveApiUrl env = "http://localhost:8084"
      ∧ ∀ r ∈ (run env post).sent,
          r.url = "http://localhost:8084/v1/chat" := by
  have hu : resolveApiUrl env = "http://localhost:8084" := by
    unfold resolveApiUrl
    rw [h]
    rfl
  refine ⟨hu, ?_⟩
  intro r hr
  obtain ⟨k, _, _, hreq, _⟩ := mem_sent env post r hr
  rw [hreq]
  show resolveApiUrl env ++ "/v1/chat" = _
  rw [hu]
  decide

lemma sendErrLines_head (x : String) :
    (sendErrLines x).head? = some ("❌ Error sending request: " ++ x) := by
  unfold sendErrLines
  cases h : strContains x "Connection" <;> rfl

lemma stepPost_reqExc (env : Env) (k msg : String) :
    stepPost env k (.reqExc msg)
      = { stdout := sendErrLines msg, sent := [buildRequest env k]
          outcome := .exited 1 } := rfl

lemma stepPost_httpError (env : Env) (k reason : String) (s : Nat) (b : Body)
    (hs : 400 ≤ s ∧ s < 600) :
    stepPost env k (.resp s reason b)
      = { stdout := sendErrLines (httpErrorMsg s reason (buildRequest env k).url)
          sent := [buildRequest env k], outcome := .exited 1 } := by
  unfold stepPost
  dsimp only
  rw [if_pos hs]

/-- C2 (amended): for every transport failure actually raised as an
exception — a `RequestException` from the post itself (connection
refused, DNS failure, timeout), or an `HTTPError` from
`raise_for_status`, which fires exactly for HTTP statuses 400..599 — the
program prints a user-facing error whose first line embeds the failure
description `str(e)`, additionally prints the start-the-server hint
exactly when that text holds the substring `Connection`, exits with
status 1, and sends the request exactly once (no retry). Statuses outside
400..599 that are not 2xx (e.g. 304) do not raise and are not reported as
transport errors — see the counterexample. -/
theorem claim2_transport_failure (env : Env) (k msg reason : String)
    (s : Nat) (b : Body)
    (hk : env "UNIROUTE_API_KEY" = some k) (hk' : k ≠ "")
    (hs : 400 ≤ s) (hs' : s < 600) :
    ((run env (.reqExc msg)).stdout.head?
        = some ("❌ Error sending request: " ++ msg)
      ∧ (strContains msg "Connection" = true →
          (run env (.reqExc msg)).stdout
            = [ "❌ Error sending request: " ++ msg, ""
              , "💡 Make sure UniRoute server is running:", "  make dev" ])
      ∧ (strContains msg "Connection" = false →
          (run env (.reqExc msg)).stdout
            = ["❌ Error sending request: " ++ msg])
      ∧ (run env (.reqExc msg)).outcome = .exited 1
      ∧ (run env (.reqExc msg)).sent.length = 1)
    ∧ ((run env (.resp s reason b)).stdout.head?
        = some ("❌ Error sending request: "
            ++ httpErrorMsg s reason (buildRequest env k).url)
      ∧ (strContains (httpErrorMsg s reason (buildRequest env k).url)
            "Connection" = true →
          (run env (.resp s reason b)).stdout
            = [ "❌ Error sending request: "
                  ++ httpErrorMsg s reason (buildRequest env k).url, ""
              , "💡 Make sure UniRoute server is running:", "  make dev" ])
      ∧ (strContains (httpErrorMsg s reason (buildRequest env k).url)
            "Connection" = false →
          (run env (.resp s reason b)).stdout
            = ["❌ Error sending request: "
                 ++ httpErrorMsg s reason (buildRequest env k).url])
      ∧ (run env (.resp s reason b)).outcome = .exited 1
      ∧ (run env (.resp s reason b)).sent.length = 1) := by
  constructor
  · rw [run_of_validKey _ _ k hk hk', stepPost_reqExc]
    refine ⟨sendErrLines_head msg, ?_, ?_, rfl, rfl⟩
    · intro hcon
      show sendErrLines msg = _
      unfold sendErrLines
      rw [hcon]
      rfl
    · intro hcon
      show sendErrLines msg = _
      unfold sendErrLines
      rw [hcon]
      rfl
  · rw [run_of_validKey _ _ k hk hk', stepPost_httpError env k reason s b ⟨hs, hs'⟩]
    refine ⟨sendErrLines_head _, ?_, ?_, rfl, rfl⟩
    · intro hcon
      show sendErrLines _ = _
      unfold sendErrLines
      rw [hcon]
      rfl
    · intro hcon
      show sendErrLines _ = _
      unfold sendErrLines
      rw [hcon]
      rfl

/-- Counterexample to C2 as stated: status 304 is not a 2xx status, yet
with a valid credential and an empty (non-JSON) body the program prints
the decode-error lines — no line mentioning a send failure at all — so
the claimed user-facing transport error for every non-2xx status does not
occur. -/
theorem claim2_non2xx_counterexample :
    (¬ (200 ≤ (304 : Nat) ∧ (304 : Nat) ≤ 299))
      ∧ (run envTest (.resp 304 "Not Modified"
            (.malformed "" "Expecting value: line 1 column 1 (char 0)"))).stdout
          = [ "❌ Error parsing response: Expecting value: line 1 column 1 (char 0)"
            , "Response: " ]
      ∧ ((run envTest (.resp 304 "Not Modified"
            (.malformed "" "Expecting value: line 1 column 1 (char 0)"))).stdout.all
          fun l => ! strContains l "Error sending request") = true := by
  decide

/-- Witness for C2 (amended) at a connection-refused exception and at an
HTTP 503 whose reason phrase contains `Connection`, so the hint clause of
the HTTP branch fires concretely. -/
theorem claim2_transport_failure_witness :
    (envTest "UNIROUTE_API_KEY" = some "ur_test_key")
      ∧ ("ur_test_key" ≠ "")
      ∧ (400 ≤ (503 : Nat)) ∧ ((503 : Nat) < 600)
      ∧ (((run envTest (.reqExc "Connection refused")).stdout.head?
            = some ("❌ Error sending request: " ++ "Connection refused")
          ∧ (strContains "Connection refused" "Connection" = true →
              (run envTest (.reqExc "Connection refused")).stdout
                = [ "❌ Error sending request: " ++ "Connection refused", ""
                  , "💡 Make sure UniRoute server is running:", "  make dev" ])
          ∧ (strContains "Connection refused" "Connection" = false →
              (run envTest (.reqExc "Connection refused")).stdout
                = ["❌ Error sending request: " ++ "Connection refused"])
          ∧ (run envTest (.reqExc "Connection refused")).outcome = .exited 1
          ∧ (run envTest (.reqExc "Connection refused")).sent.length = 1)
        ∧ ((run envTest (.resp 503 "Connection Failed"
              (.malformed "" "e"))).stdout.head?
            = some ("❌ Error sending request: "
                ++ httpErrorMsg 503 "Connection Failed"
                     (buildRequest envTest "ur_test_key").url)
          ∧ (strContains (httpErrorMsg 503 "Connection Failed"
                (buildRequest envTest "ur_test_key").url) "Connection" = true →
              (run envTest (.resp 503 "Connection Failed"
                  (.malformed "" "e"))).stdout
                = [ "❌ Error sending request: "
                      ++ httpErrorMsg 503 "Connection Failed"
                           (buildRequest envTest "ur_test_key").url, ""
                  , "💡 Make sure UniRoute server is running:", "  make dev" ])
          ∧ (strContains (httpErrorMsg 503 "Connection Failed"
                (buildRequest envTest "ur_test_key").url) "Connection" = false →
              (run envTest (.resp 503 "Connection Failed"
                  (.malformed "" "e"))).stdout
                = ["❌ Error sending request: "
                     ++ httpErrorMsg 503 "Connection Failed"
                          (buildRequest envTest "ur_test_key").url])
          ∧ (run envTest (.resp 503 "Connection Failed"
              (.malformed "" "e"))).outcome = .exited 1
          ∧ (run envTest (.resp 503 "Connection Failed"
              (.malformed "" "e"))).sent.length = 1)) :=
  ⟨rfl, by decide, by decide, by decide,
   claim2_transport_failure envTest "ur_test_key" "Connection refused"
     "Connection Failed" 503 (.malformed "" "e") rfl (by decide)
     (by decide) (by decide)⟩

/-- C10 (amended): a 2xx response whose body is the well-formed JSON of a
bare integer (such as `5`) makes the program raise an unhandled
`TypeError` at the membership test `"choices" in chat_response` and
terminate with a non-zero status, after having printed the success banner
and a blank line; neither the documented decode-error message nor the raw
body is printed (the stdout is exactly the banner and the blank line). -/
theorem claim10_typeerror_after_banner (env : Env) (k reason raw : String)
    (s : Nat) (n : Int)
    (hk : env "UNIROUTE_API_KEY" = some k) (hk' : k ≠ "")
    (h2 : 200 ≤ s) (h2' : s ≤ 299) :
    (run env (.resp s reason (.wellFormed (.num n) raw))).outcome
        = .crashed (.typeError "argument of type \x27int\x27 is not iterable")
      ∧ (run env (.resp s reason (.wellFormed (.num n) raw))).outcome.exitStatus ≠ 0
      ∧ (run env (.resp s reason (.wellFormed (.num n) raw))).stdout
        = ["✅ Chat Response:", ""] := by
  have hrend : render (.num n)
      = (["✅ Chat Response:", ""],
         some (.typeError "argument of type \x27int\x27 is not iterable")) :=
    render_choicesExc (.num n) _ rfl
  rw [run_of_validKey _ _ k hk hk',
      stepPost_crash env k reason raw s (.num n) _ _ (by omega) hrend]
  exact ⟨rfl, Nat.one_ne_zero, rfl⟩

/-- Counterexample to C10 as stated: on the body `5` the program does
crash with the claimed `TypeError`, but the success banner HAS been
printed by then, contradicting the claim's "without printing the success
banner". -/
theorem claim10_banner_counterexample :
    (run envTest (.resp 200 "OK" (.wellFormed (.num 5) "5"))).outcome
        = .crashed (.typeError "argument of type \x27int\x27 is not iterable")
      ∧ "✅ Chat Response:"
          ∈ (run envTest (.resp 200 "OK" (.wellFormed (.num 5) "5"))).stdout := by
  decide

/-- Witness for C10 (amended) at the body `5`. -/
theorem claim10_typeerror_after_banner_witness :
    (envTest "UNIROUTE_API_KEY" = some "ur_test_key")
      ∧ ("ur_test_key" ≠ "")
      ∧ (200 ≤ (200 : Nat)) ∧ ((200 : Nat) ≤ 299)
      ∧ ((run envTest (.resp 200 "OK" (.wellFormed (.num 5) "5"))).outcome
            = .crashed (.typeError "argument of type \x27int\x27 is not iterable")
        ∧ (run envTest (.resp 200 "OK"
            (.wellFormed (.num 5) "5"))).outcome.exitStatus ≠ 0
        ∧ (run envTest (.resp 200 "OK" (.wellFormed (.num 5) "5"))).stdout
            = ["✅ Chat Response:", ""]) :=
  ⟨rfl, by decide, by decide, by decide,
   claim10_typeerror_after_banner envTest "ur_test_key" "OK" "5" 200 5 rfl
     (by decide) (by decide) (by decide)⟩

/-- Witness for C8 at a concrete environment without `UNIROUTE_API_URL`. -/
theorem claim8_default_endpoint_witness :
    (envTest "UNIROUTE_API_URL" = none)
      ∧ (resolveApiUrl envTest = "http://localhost:8084"
          ∧ ∀ r ∈ (run envTest (.reqExc "boom")).sent,
              r.url = "http://localhost:8084/v1/chat") :=
  ⟨by decide, claim8_default_endpoint envTest (.reqExc "boom") (by decide)⟩

lemma strStarts_banner_tok : strStarts "✅ Chat Response:" "📊 Tokens: " = false := by
  decide

lemma strStarts_blank_tok : strStarts "" "📊 Tokens: " = false := by
  decide

lemma strStarts_banner_msg : strStarts "✅ Chat Response:" "💬 " = false := by
  decide

lemma strStarts_blank_msg : strStarts "" "💬 " = false := by
  decide

lemma strStarts_usageLine (a b c : String) :
    strStarts ("📊 Tokens: " ++ a ++ " prompt + " ++ b ++ " completion = "
        ++ c ++ " total") "📊 Tokens: " = true := by
  simp only [String.append_assoc]
  exact strStarts_append_self _ _

/-- C6: every HTTP request the program ever issues is the single
synchronous POST to `{endpoint}/v1/chat` carrying the JSON-encoded fixed
`ChatRequest` payload, the `Content-Type: application/json` header, an
`Authorization: Bearer {credential}` header for the non-empty credential
read from the environment, and the fixed timeout 30; no run sends more
than one request. -/
theorem claim6_request_invariant (env : Env) (post : PostOutcome)
    (r : HttpRequest) (hr : r ∈ (run env post).sent) :
    r.method = "POST"
      ∧ r.url = resolveApiUrl env ++ "/v1/chat"
      ∧ r.body = request_data
      ∧ r.timeout = 30
      ∧ ("Content-Type", "application/json") ∈ r.headers
      ∧ (∃ k, env "UNIROUTE_API_KEY" = some k ∧ k ≠ ""
            ∧ ("Authorization", "Bearer " ++ k) ∈ r.headers)
      ∧ (run env post).sent.length ≤ 1 := by
  obtain ⟨k, hk, hk', hreq, hsent⟩ := mem_sent env post r hr
  subst hreq
  refine ⟨rfl, rfl, rfl, rfl, ?_, ⟨k, hk, hk', ?_⟩, ?_⟩
  · show _ ∈ [ ("Content-Type", "application/json")
             , ("Authorization", "Bearer " ++ k) ]
    exact List.mem_cons_self _ _
  · show _ ∈ [ ("Content-Type", "application/json")
             , ("Authorization", "Bearer " ++ k) ]
    exact List.mem_cons_of_mem _ (List.mem_cons_self _ _)
  · rw [hsent]
    exact Nat.le_refl 1

/-- Witness for C6: the request sent on a connection failure from the
test environment satisfies the invariant. -/
theorem claim6_request_invariant_witness :
    (buildRequest envTest "ur_test_key" ∈ (run envTest (.reqExc "x")).sent)
      ∧ ((buildRequest envTest "ur_test_key").method = "POST"
        ∧ (buildRequest envTest "ur_test_key").url
            = resolveApiUrl envTest ++ "/v1/chat"
        ∧ (buildRequest envTest "ur_test_key").body = request_data
        ∧ (buildRequest envTest "ur_test_key").timeout = 30
        ∧ ("Content-Type", "application/json")
            ∈ (buildRequest envTest "ur_test_key").headers
        ∧ (∃ k, envTest "UNIROUTE_API_KEY" = some k ∧ k ≠ ""
              ∧ ("Authorization", "Bearer " ++ k)
                  ∈ (buildRequest envTest "ur_test_key").headers)
        ∧ (run envTest (.reqExc "x")).sent.length ≤ 1) :=
  ⟨by decide,
   claim6_request_invariant envTest (.reqExc "x")
     (buildRequest envTest "ur_test_key") (by decide)⟩

/-- C9: the flow is deterministic in its inputs — two invocations whose
environments agree on the two recognised variables and that receive the
same network outcome (hence identical response bodies) produce
byte-identical stdout. -/
theorem claim9_determinism (e1 e2 : Env) (post : PostOutcome)
    (h1 : e1 "UNIROUTE_API_KEY" = e2 "UNIROUTE_API_KEY")
    (h2 : e1 "UNIROUTE_API_URL" = e2 "UNIROUTE_API_URL") :
    (run e1 post).stdout = (run e2 post).stdout := by
  have hb : ∀ k, buildRequest e1 k = buildRequest e2 k := by
    intro k
    unfold buildRequest resolveApiUrl
    rw [h2]
  have hrun : run e1 post = run e2 post := by
    unfold run
    rw [h1]
    cases hE2 : e2 "UNIROUTE_API_KEY" with
    | none => rfl
    | some k =>
        by_cases hk : k = ""
        · simp [hk]
        · dsimp only
          rw [if_neg hk, if_neg hk]
          unfold stepPost
          dsimp only
          rw [hb k]
  rw [hrun]

/-- Witness for C9 at two distinct concrete environments agreeing on the
recognised variables, with the golden response body. -/
theorem claim9_determinism_witness :
    (envTest "UNIROUTE_API_KEY" = envAlt "UNIROUTE_API_KEY")
      ∧ (envTest "UNIROUTE_API_URL" = envAlt "UNIROUTE_API_URL")
      ∧ (run envTest (.resp 200 "OK" (.wellFormed goldenBody goldenRaw))).stdout
          = (run envAlt (.resp 200 "OK" (.wellFormed goldenBody goldenRaw))).stdout :=
  ⟨by decide, by decide,
   claim9_determinism envTest envAlt (.resp 200 "OK" (.wellFormed goldenBody goldenRaw))
     (by decide) (by decide)⟩

/-- C4: for every 2xx well-formed object response whose `usage` field is
an object with integer token sub-fields where present (each defaulting to
0 when absent) and whose choices block renders without error, stdout is
the success banner, the choices lines, a blank line, and a token summary
line `📊 Tokens: {prompt} prompt + {completion} completion = {total}
total`; that summary line occurs exactly once, and the process exits with
status 0. At the golden body this yields `💬 Hi` and
`📊 Tokens: 5 prompt + 3 completion = 8 total`. -/
theorem claim4_usage_summary (env : Env) (k reason raw : String) (s : Nat)
    (fs us : JsonObj) (l1 : List String) (np nc nt : Int)
    (hk : env "UNIROUTE_API_KEY" = some k) (hk' : k ≠ "")
    (h2 : 200 ≤ s) (h2' : s ≤ 299)
    (hc : renderChoices (.obj fs) = .ok l1)
    (hu : fs.lookup "usage" = some (.obj us))
    (hp : (us.lookup "prompt_tokens").getD (.num 0) = .num np)
    (hco : (us.lookup "completion_tokens").getD (.num 0) = .num nc)
    (ht : (us.lookup "total_tokens").getD (.num 0) = .num nt) :
    (run env (.resp s reason (.wellFormed (.obj fs) raw))).stdout
        = ["✅ Chat Response:", ""] ++ l1 ++ [""]
          ++ ["📊 Tokens: " ++ toString np ++ " prompt + " ++ toString nc
                ++ " completion = " ++ toString nt ++ " total"]
      ∧ ((run env (.resp s reason (.wellFormed (.obj fs) raw))).stdout.countP
          fun l => strStarts l "📊 Tokens: ") = 1
      ∧ (run env (.resp s reason (.wellFormed (.obj fs) raw))).outcome
        = .exited 0 := by
  have hu2 := renderUsage_found fs us np nc nt hu hp hco ht
  have hrend := render_ok (.obj fs) l1 _ hc hu2
  rw [run_of_validKey _ _ k hk hk',
      stepPost_ok env k reason raw s _ _ (by omega) hrend]
  refine ⟨rfl, ?_, rfl⟩
  have htok := strStarts_usageLine (toString np) (toString nc) (toString nt)
  rcases renderChoices_shape _ _ hc with h | ⟨s0, h⟩ <;> subst h <;>
    simp [List.countP_append, List.countP_cons, htok, strStarts_msgline_tok,
      strStarts_banner_tok, strStarts_blank_tok]

/-- Witness for C4 at the golden body: the message line `💬 Hi` and the
summary line `📊 Tokens: 5 prompt + 3 completion = 8 total` are printed
and the run exits 0. -/
theorem claim4_usage_summary_witness :
    (envTest "UNIROUTE_API_KEY" = some "ur_test_key")
      ∧ ("ur_test_key" ≠ "")
      ∧ (200 ≤ (200 : Nat)) ∧ ((200 : Nat) ≤ 299)
      ∧ (renderChoices (.obj goldenFields) = .ok ["💬 Hi"])
      ∧ (goldenFields.lookup "usage" = some (.obj goldenUsage))
      ∧ ((goldenUsage.lookup "prompt_tokens").getD (.num 0) = .num 5)
      ∧ ((goldenUsage.lookup "completion_tokens").getD (.num 0) = .num 3)
      ∧ ((goldenUsage.lookup "total_tokens").getD (.num 0) = .num 8)
      ∧ ((run envTest (.resp 200 "OK" (.wellFormed (.obj goldenFields) goldenRaw))).stdout
            = ["✅ Chat Response:", ""] ++ ["💬 Hi"] ++ [""]
              ++ ["📊 Tokens: " ++ toString (5 : Int) ++ " prompt + "
                    ++ toString (3 : Int) ++ " completion = "
                    ++ toString (8 : Int) ++ " total"]
        ∧ ((run envTest (.resp 200 "OK"
              (.wellFormed (.obj goldenFields) goldenRaw))).stdout.countP
            fun l => strStarts l "📊 Tokens: ") = 1
        ∧ (run envTest (.resp 200 "OK"
            (.wellFormed (.obj goldenFields) goldenRaw))).outcome = .exited 0)
      ∧ "💬 Hi" ∈ (run envTest (.resp 200 "OK"
          (.wellFormed (.obj goldenFields) goldenRaw))).stdout
      ∧ "📊 Tokens: 5 prompt + 3 completion = 8 total"
          ∈ (run envTest (.resp 200 "OK"
              (.wellFormed (.obj goldenFields) goldenRaw))).stdout :=
  ⟨rfl, by decide, by decide, by decide, rfl, rfl, rfl, rfl, rfl,
   claim4_usage_summary envTest "ur_test_key" "OK" goldenRaw 200
     goldenFields goldenUsage ["💬 Hi"] 5 3 8 rfl (by decide) (by decide)
     (by decide) rfl rfl rfl rfl rfl,
   by decide, by decide⟩

/-- C5: for a 2xx response that decodes to an object, an empty `choices`
list yields the success banner with no message line and no error (and
with `usage` also absent the stdout is exactly the banner and two blank
lines), and an absent `usage` record yields no token summary line; in
both cases the run is a silent success with exit status 0. -/
theorem claim5_silent_omissions (env : Env) (k reason raw : String)
    (s : Nat) (fs : JsonObj) (l1 : List String)
    (hk : env "UNIROUTE_API_KEY" = some k) (hk' : k ≠ "")
    (h2 : 200 ≤ s) (h2' : s ≤ 299) :
    (fs.lookup "choices" = some (.arr .nil) → fs.lookup "usage" = none →
        (run env (.resp s reason (.wellFormed (.obj fs) raw))).stdout
            = ["✅ Chat Response:", "", ""]
          ∧ ((run env (.resp s reason (.wellFormed (.obj fs) raw))).stdout.countP
              fun l => strStarts l "💬 ") = 0
          ∧ ((run env (.resp s reason (.wellFormed (.obj fs) raw))).stdout.countP
              fun l => strStarts l "📊 Tokens: ") = 0
          ∧ (run env (.resp s reason (.wellFormed (.obj fs) raw))).outcome
            = .exited 0)
      ∧ (fs.lookup "usage" = none → renderChoices (.obj fs) = .ok l1 →
          (run env (.resp s reason (.wellFormed (.obj fs) raw))).stdout
              = ["✅ Chat Response:", ""] ++ l1 ++ [""]
            ∧ ((run env (.resp s reason (.wellFormed (.obj fs) raw))).stdout.countP
                fun l => strStarts l "📊 Tokens: ") = 0
            ∧ (run env (.resp s reason (.wellFormed (.obj fs) raw))).outcome
              = .exited 0) := by
  constructor
  · intro hch hus
    have hc0 := renderChoices_empty fs hch
    have hu0 := renderUsage_none fs hus
    have hrend := render_ok (.obj fs) [] [] hc0 hu0
    rw [run_of_validKey _ _ k hk hk',
        stepPost_ok env k reason raw s _ _ (by omega) hrend]
    refine ⟨rfl, ?_, ?_, rfl⟩
    · show List.countP (fun l => strStarts l "💬 ")
          ["✅ Chat Response:", "", ""] = 0
      decide
    · show List.countP (fun l => strStarts l "📊 Tokens: ")
          ["✅ Chat Response:", "", ""] = 0
      decide
  · intro hus hc
    have hu0 := renderUsage_none fs hus
    have hrend := render_ok (.obj fs) l1 [] hc hu0
    rw [run_of_validKey _ _ k hk hk',
        stepPost_ok env k reason raw s _ _ (by omega) hrend]
    refine ⟨by simp, ?_, rfl⟩
    rcases renderChoices_shape _ _ hc with h | ⟨s0, h⟩ <;> subst h <;>
      simp [List.countP_append, List.countP_cons, strStarts_msgline_tok,
        strStarts_banner_tok, strStarts_blank_tok]

/-- Witness for C5 at the body `{"choices":[]}` (no `usage`). -/
theorem claim5_silent_omissions_witness :
    (envTest "UNIROUTE_API_KEY" = some "ur_test_key")
      ∧ ("ur_test_key" ≠ "")
      ∧ (200 ≤ (200 : Nat)) ∧ ((200 : Nat) ≤ 299)
      ∧ ((emptyChoicesFields.lookup "choices" = some (.arr .nil) →
            emptyChoicesFields.lookup "usage" = none →
            (run envTest (.resp 200 "OK"
                (.wellFormed (.obj emptyChoicesFields) "x"))).stdout
                = ["✅ Chat Response:", "", ""]
              ∧ ((run envTest (.resp 200 "OK"
                  (.wellFormed (.obj emptyChoicesFields) "x"))).stdout.countP
                  fun l => strStarts l "💬 ") = 0
              ∧ ((run envTest (.resp 200 "OK"
                  (.wellFormed (.obj emptyChoicesFields) "x"))).stdout.countP
                  fun l => strStarts l "📊 Tokens: ") = 0
              ∧ (run envTest (.resp 200 "OK"
                  (.wellFormed (.obj emptyChoicesFields) "x"))).outcome
                = .exited 0)
          ∧ (emptyChoicesFields.lookup "usage" = none →
              renderChoices (.obj emptyChoicesFields) = .ok [] →
              (run envTest (.resp 200 "OK"
                  (.wellFormed (.obj emptyChoicesFields) "x"))).stdout
                  = ["✅ Chat Response:", ""] ++ [] ++ [""]
                ∧ ((run envTest (.resp 200 "OK"
                    (.wellFormed (.obj emptyChoicesFields) "x"))).stdout.countP
                    fun l => strStarts l "📊 Tokens: ") = 0
                ∧ (run envTest (.resp 200 "OK"
                    (.wellFormed (.obj emptyChoicesFields) "x"))).outcome
                  = .exited 0)) :=
  ⟨rfl, by decide, by decide, by decide,
   claim5_silent_omissions envTest "ur_test_key" "OK" "x" 200
     emptyChoicesFields [] rfl (by decide) (by decide) (by decide)⟩

end Uniroute
